import Mathlib

/-!
Verification of the funding-rate arbitrage scanner's opportunity-computation
engine (src/analyze_data.py) against its natural-language specification.

The pandas computations are row-wise, so each dataframe column assignment is
embedded as a Lean function on a per-row record.  Floating-point numbers are
modelled by exact rationals; rounding to two decimals is modelled by standard
rounding of the exact rational (the claims under study do not hinge on
float-specific behaviour).  Exchange names are strings, as in the source,
because the code compares the assigned short/long labels against the exchange
name arguments by string equality.
-/

namespace FundingScanner

/-- Outcome of applying Python's ast.literal_eval to a string value:
the string parses to a list of numbers, parses to some non-list literal,
or fails to parse (SyntaxError/ValueError). -/
inductive ParseResult where
  | list (l : List ℚ)
  | nonList
  | failure
deriving DecidableEq, Repr

/-- A raw cell value of a historical-rates column as it may arrive from the
upstream files (analyze_data.py tolerates all of these): a genuine Python
list, a missing value (NaN/None), a string encoding, or a value of any other
type. -/
inductive RawVal where
  | pyList (l : List ℚ)
  | null
  | str (p : ParseResult)
  | wrongType
deriving DecidableEq, Repr

/-- Embedding of coerce_to_list (analyze_data.py lines 137-148): a list is
kept, a missing value becomes [], a string is parsed with ast.literal_eval
inside try/except and yields the parsed list or [] on any failure or
non-list result, and every other type becomes []. -/
def coerce_to_list : RawVal → List ℚ
  | .pyList l => l
  | .null => []
  | .str (.list l) => l
  | .str .nonList => []
  | .str .failure => []
  | .wrongType => []

/-- A raw value is a well-formed list representation when it is a genuine
list or a string that parses to a list; every other value is the
malformed/missing case of the specification. -/
def RawVal.wellFormedList : RawVal → Prop
  | .pyList _ => True
  | .str (.list _) => True
  | _ => False

instance : DecidablePred RawVal.wellFormedList := fun v => by
  cases v with
  | pyList l => exact .isTrue trivial
  | null => exact .isFalse id
  | str p => cases p with
    | list l => exact .isTrue trivial
    | nonList => exact .isFalse id
    | failure => exact .isFalse id
  | wrongType => exact .isFalse id

/-- Rounding to two decimal places, as applied by .round(decimals=2):
modelled as standard rounding of the exact rational. -/
def round2 (q : ℚ) : ℚ := ((round (100 * q) : ℤ) : ℚ) / 100

/-- One joined row of the inner merge of two venues' perpetual tables on
the pair column (analyze_data.py line 134).  The _x fields come from the
first exchange argument (venue A), the _y fields from the second (venue B).
The rate fields are only meaningful when the computation runs in
current-rate mode (both rate columns present after the merge); in fallback
mode the code never reads them. -/
structure PerpIn where
  pair : String
  rate_x : ℚ
  rate_y : ℚ
  historical_rates_x : RawVal
  historical_rates_y : RawVal
  historical_rates_7d_x : RawVal
  historical_rates_7d_y : RawVal
  historical_rates_3d_x : RawVal
  historical_rates_3d_y : RawVal
  mean_daily_amplitude_x : ℚ
  mean_daily_amplitude_y : ℚ
  max_daily_amplitude_x : ℚ
  max_daily_amplitude_y : ℚ
  amplitude_days_x : ℚ
  amplitude_days_y : ℚ
deriving DecidableEq, Repr

/-- Column sum_x (line 169): cumulative sum of venue A's coerced main-window
series. -/
def sum_x (r : PerpIn) : ℚ := (coerce_to_list r.historical_rates_x).sum

/-- Column sum_y (line 170). -/
def sum_y (r : PerpIn) : ℚ := (coerce_to_list r.historical_rates_y).sum

/-- Column cumulative_rate_diff (line 171): raw A-minus-B difference of the
main-window sums, computed before any short/long assignment. -/
def cumulative_rate_diff (r : PerpIn) : ℚ := sum_x r - sum_y r

/-- Column APY_historical_average (lines 172-173): annualized from the raw
A-minus-B main-window difference and rounded to two decimals.  The days
argument is CONFIG funding_historical_days. -/
def APY_col (days : ℚ) (r : PerpIn) : ℚ :=
  round2 (365 * cumulative_rate_diff r / days)

/-- Column short_exchange (lines 176-185).  In current-rate mode the default
is venue A, overridden to venue B exactly on rows where rate_x < rate_y
(line 180 assigns short = exchange_2 there).  In fallback mode the row gets
venue A iff cumulative_rate_diff > 0 (line 185). -/
def short_exchange_col (ex1 ex2 : String) (hasCurrent : Bool) (r : PerpIn) :
    String :=
  if hasCurrent then
    if r.rate_x < r.rate_y then ex2 else ex1
  else
    if cumulative_rate_diff r > 0 then ex1 else ex2

/-- Column long_exchange (lines 176-186): the venue not chosen as short in
the same branch. -/
def long_exchange_col (ex1 ex2 : String) (hasCurrent : Bool) (r : PerpIn) :
    String :=
  if hasCurrent then
    if r.rate_x < r.rate_y then ex1 else ex2
  else
    if cumulative_rate_diff r > 0 then ex2 else ex1

/-- Column short_rate (line 181), only created in current-rate mode:
rate_x when the short label equals the first exchange name, else rate_y. -/
def short_rate_col (ex1 ex2 : String) (hasCurrent : Bool) (r : PerpIn) :
    Option ℚ :=
  if hasCurrent then
    some (if short_exchange_col ex1 ex2 hasCurrent r = ex1
          then r.rate_x else r.rate_y)
  else none

/-- Column long_rate (line 182), only created in current-rate mode. -/
def long_rate_col (ex1 ex2 : String) (hasCurrent : Bool) (r : PerpIn) :
    Option ℚ :=
  if hasCurrent then
    some (if long_exchange_col ex1 ex2 hasCurrent r = ex1
          then r.rate_x else r.rate_y)
  else none

/-- Column short_historical_rates (lines 188-190): venue A's coerced main
series when the short label equals the first exchange name, else venue
B's. -/
def short_historical_rates_col (ex1 ex2 : String) (hasCurrent : Bool)
    (r : PerpIn) : List ℚ :=
  if short_exchange_col ex1 ex2 hasCurrent r = ex1
  then coerce_to_list r.historical_rates_x
  else coerce_to_list r.historical_rates_y

/-- Column long_historical_rates (lines 191-193). -/
def long_historical_rates_col (ex1 ex2 : String) (hasCurrent : Bool)
    (r : PerpIn) : List ℚ :=
  if long_exchange_col ex1 ex2 hasCurrent r = ex1
  then coerce_to_list r.historical_rates_x
  else coerce_to_list r.historical_rates_y

/-- Column short_historical_rates_7d (lines 196-198). -/
def short_historical_rates_7d_col (ex1 ex2 : String) (hasCurrent : Bool)
    (r : PerpIn) : List ℚ :=
  if short_exchange_col ex1 ex2 hasCurrent r = ex1
  then coerce_to_list r.historical_rates_7d_x
  else coerce_to_list r.historical_rates_7d_y

/-- Column long_historical_rates_7d (lines 199-201). -/
def long_historical_rates_7d_col (ex1 ex2 : String) (hasCurrent : Bool)
    (r : PerpIn) : List ℚ :=
  if long_exchange_col ex1 ex2 hasCurrent r = ex1
  then coerce_to_list r.historical_rates_7d_x
  else coerce_to_list r.historical_rates_7d_y

/-- Column short_historical_rates_3d (lines 202-204). -/
def short_historical_rates_3d_col (ex1 ex2 : String) (hasCurrent : Bool)
    (r : PerpIn) : List ℚ :=
  if short_exchange_col ex1 ex2 hasCurrent r = ex1
  then coerce_to_list r.historical_rates_3d_x
  else coerce_to_list r.historical_rates_3d_y

/-- Column long_historical_rates_3d (lines 205-207). -/
def long_historical_rates_3d_col (ex1 ex2 : String) (hasCurrent : Bool)
    (r : PerpIn) : List ℚ :=
  if long_exchange_col ex1 ex2 hasCurrent r = ex1
  then coerce_to_list r.historical_rates_3d_x
  else coerce_to_list r.historical_rates_3d_y

/-- Column mean_daily_amplitude (lines 235, 240-248): starts as the
element-wise max, overridden wholesale by the venue whose amplitude_days is
strictly larger. -/
def mean_daily_amplitude_col (r : PerpIn) : ℚ :=
  if r.amplitude_days_x > r.amplitude_days_y then r.mean_daily_amplitude_x
  else if r.amplitude_days_y > r.amplitude_days_x then r.mean_daily_amplitude_y
  else max r.mean_daily_amplitude_x r.mean_daily_amplitude_y

/-- Column max_daily_amplitude (lines 236, 240-248). -/
def max_daily_amplitude_col (r : PerpIn) : ℚ :=
  if r.amplitude_days_x > r.amplitude_days_y then r.max_daily_amplitude_x
  else if r.amplitude_days_y > r.amplitude_days_x then r.max_daily_amplitude_y
  else max r.max_daily_amplitude_x r.max_daily_amplitude_y

/-- Column amplitude_days (lines 237, 240-248): venue A's value by default,
replaced by the strictly larger one when they differ. -/
def amplitude_days_col (r : PerpIn) : ℚ :=
  if r.amplitude_days_x > r.amplitude_days_y then r.amplitude_days_x
  else if r.amplitude_days_y > r.amplitude_days_x then r.amplitude_days_y
  else r.amplitude_days_x

/-- One emitted PerpPerpOpportunity record (the column selection at lines
252-261, plus the intermediate short_rate/long_rate/rate_diff columns that
exist only in current-rate mode). -/
structure PerpOut where
  pair : String
  APY_historical_average : ℚ
  short_exchange : String
  long_exchange : String
  short_rate : Option ℚ
  long_rate : Option ℚ
  rate_diff : Option ℚ
  short_historical_rates : List ℚ
  long_historical_rates : List ℚ
  short_historical_rates_7d : List ℚ
  long_historical_rates_7d : List ℚ
  short_historical_rates_3d : List ℚ
  long_historical_rates_3d : List ℚ
  short_cumulative_rate : ℚ
  long_cumulative_rate : ℚ
  short_cumulative_rate_7d : ℚ
  long_cumulative_rate_7d : ℚ
  short_cumulative_rate_3d : ℚ
  long_cumulative_rate_3d : ℚ
  cumulative_rate_diff_main : ℚ
  cumulative_rate_diff_7d : ℚ
  cumulative_rate_diff_3d : ℚ
  mean_daily_amplitude : ℚ
  max_daily_amplitude : ℚ
  amplitude_days : ℚ
deriving DecidableEq, Repr

/-- The per-row body of create_perp_perp_opportunities_df (analyze_data.py
lines 134-261): every field is the corresponding dataframe column.
The cumulative sums per side (lines 210-215) and the per-window diffs
(lines 229-231) are short minus long of the relabeled series. -/
def create_perp_perp_row (days : ℚ) (ex1 ex2 : String) (hasCurrent : Bool)
    (r : PerpIn) : PerpOut where
  pair := r.pair
  APY_historical_average := APY_col days r
  short_exchange := short_exchange_col ex1 ex2 hasCurrent r
  long_exchange := long_exchange_col ex1 ex2 hasCurrent r
  short_rate := short_rate_col ex1 ex2 hasCurrent r
  long_rate := long_rate_col ex1 ex2 hasCurrent r
  rate_diff :=
    match short_rate_col ex1 ex2 hasCurrent r,
          long_rate_col ex1 ex2 hasCurrent r with
    | some s, some l => some (s - l)
    | _, _ => none
  short_historical_rates := short_historical_rates_col ex1 ex2 hasCurrent r
  long_historical_rates := long_historical_rates_col ex1 ex2 hasCurrent r
  short_historical_rates_7d :=
    short_historical_rates_7d_col ex1 ex2 hasCurrent r
  long_historical_rates_7d := long_historical_rates_7d_col ex1 ex2 hasCurrent r
  short_historical_rates_3d :=
    short_historical_rates_3d_col ex1 ex2 hasCurrent r
  long_historical_rates_3d := long_historical_rates_3d_col ex1 ex2 hasCurrent r
  short_cumulative_rate := (short_historical_rates_col ex1 ex2 hasCurrent r).sum
  long_cumulative_rate := (long_historical_rates_col ex1 ex2 hasCurrent r).sum
  short_cumulative_rate_7d :=
    (short_historical_rates_7d_col ex1 ex2 hasCurrent r).sum
  long_cumulative_rate_7d :=
    (long_historical_rates_7d_col ex1 ex2 hasCurrent r).sum
  short_cumulative_rate_3d :=
    (short_historical_rates_3d_col ex1 ex2 hasCurrent r).sum
  long_cumulative_rate_3d :=
    (long_historical_rates_3d_col ex1 ex2 hasCurrent r).sum
  cumulative_rate_diff_main :=
    (short_historical_rates_col ex1 ex2 hasCurrent r).sum -
      (long_historical_rates_col ex1 ex2 hasCurrent r).sum
  cumulative_rate_diff_7d :=
    (short_historical_rates_7d_col ex1 ex2 hasCurrent r).sum -
      (long_historical_rates_7d_col ex1 ex2 hasCurrent r).sum
  cumulative_rate_diff_3d :=
    (short_historical_rates_3d_col ex1 ex2 hasCurrent r).sum -
      (long_historical_rates_3d_col ex1 ex2 hasCurrent r).sum
  mean_daily_amplitude := mean_daily_amplitude_col r
  max_daily_amplitude := max_daily_amplitude_col r
  amplitude_days := amplitude_days_col r

/-- The joined table mapped row-wise through the computation (the dataframe
is processed column-vector-wise in the source, which is row-independent). -/
def create_perp_perp_opportunities_df (days : ℚ) (ex1 ex2 : String)
    (hasCurrent : Bool) (rows : List PerpIn) : List PerpOut :=
  rows.map (create_perp_perp_row days ex1 ex2 hasCurrent)

/-- Outcome of the historical-rates preparation step of spot-perp
computation, historical_rates.fillna('[]').apply(ast.literal_eval)
(analyze_data.py lines 284 and 295): a missing value is first replaced by
the string "[]" so it parses to the empty list; a string value is parsed,
with no try/except, so a parse failure propagates as an exception; a
non-null non-string value (a genuine list, or any other type) also makes
ast.literal_eval raise. -/
inductive SpotHistResult where
  | ok (l : List ℚ)
  | okNonList
  | raised
deriving DecidableEq, Repr

/-- Embedding of the fillna + literal_eval step of spot-perp computation. -/
def spot_coerce_hist : RawVal → SpotHistResult
  | .null => .ok []
  | .str (.list l) => .ok l
  | .str .nonList => .okNonList
  | .str .failure => .raised
  | .pyList _ => .raised
  | .wrongType => .raised

/-- Embedding of the rate approximation at line 285, executed when the rate
column is absent: the last element of the parsed historical list, 0 when
the parsed value is empty or not a list; an exception from the coercion
step propagates. -/
def spot_approx_rate (h : RawVal) : Except Unit ℚ :=
  match spot_coerce_hist h with
  | .ok l => .ok ((l.getLast?).getD 0)
  | .okNonList => .ok 0
  | .raised => .error ()

/-- The current rate used by spot-perp computation for one row (lines
283-285): the live rate when the rate column exists, otherwise the
last-historical approximation. -/
def spot_row_rate (hasRate : Bool) (liveRate : ℚ) (h : RawVal) :
    Except Unit ℚ :=
  if hasRate then .ok liveRate else spot_approx_rate h

/-- The threshold filter at line 286 applied to one row: the row survives
iff the absolute value of its rate exceeds CONFIG funding_rate_threshold. -/
def spot_keep_row (threshold : ℚ) (hasRate : Bool) (liveRate : ℚ)
    (h : RawVal) : Except Unit Bool :=
  match spot_row_rate hasRate liveRate h with
  | .ok q => .ok (decide (threshold < |q|))
  | .error e => .error e

/-- One SpotPerpOpportunity record as consumed by filter_and_sort_rates;
only the fields that function touches are modelled. -/
structure SpotRow where
  pair : String
  rate : ℚ
  APY_historical_average : ℚ
deriving DecidableEq, Repr

/-- The in-place APY sign flip at line 331. -/
def negateAPY (r : SpotRow) : SpotRow :=
  { r with APY_historical_average := -r.APY_historical_average }

/-- The descending-by-rate order used at line 336. -/
def rateDescRel (a b : SpotRow) : Prop := b.rate ≤ a.rate

/-- The ascending-by-rate order used at line 333. -/
def rateAscRel (a b : SpotRow) : Prop := a.rate ≤ b.rate

instance : DecidableRel rateDescRel := fun a b =>
  inferInstanceAs (Decidable (b.rate ≤ a.rate))

instance : DecidableRel rateAscRel := fun a b =>
  inferInstanceAs (Decidable (a.rate ≤ b.rate))

instance : IsTotal SpotRow rateDescRel := ⟨fun a b => le_total b.rate a.rate⟩

instance : IsTotal SpotRow rateAscRel := ⟨fun a b => le_total a.rate b.rate⟩

instance : IsTrans SpotRow rateDescRel :=
  ⟨fun _ _ _ h h2 => le_trans h2 h⟩

instance : IsTrans SpotRow rateAscRel :=
  ⟨fun _ _ _ h h2 => le_trans h h2⟩

/-- Embedding of filter_and_sort_rates (analyze_data.py lines 319-338).
With negative=True the APY sign of every record is flipped first (line
331), then rows with rate < 0 are kept and sorted by rate ascending;
with negative=False rows with rate > 0 are kept and sorted by rate
descending.  The sort is modelled by insertion sort, which produces a
sorted permutation exactly as sort_values does. -/
def filter_and_sort_rates (rows : List SpotRow) (negative : Bool) :
    List SpotRow :=
  if negative then
    List.insertionSort rateAscRel
      ((rows.map negateAPY).filter (fun r => decide (r.rate < 0)))
  else
    List.insertionSort rateDescRel
      (rows.filter (fun r => decide (0 < r.rate)))

/-- Embedding of remove_leading_numbers (analyze_data.py lines 341-351),
re.sub applied to an anchored regex matching the character 1 followed by a
greedy run of one-or-more 0 characters: when the string starts with 1 and
at least one 0 follows, that 1 and the maximal run of 0s are stripped;
otherwise the string is unchanged.  Being anchored, the pattern is applied
at most once. -/
def remove_leading_numbers_aux (cs : List Char) : List Char :=
  match cs with
  | [] => []
  | c :: rest =>
    if c = '1' then
      if rest.takeWhile (fun d => d = '0') = [] then c :: rest
      else rest.dropWhile (fun d => d = '0')
    else c :: rest

/-- String wrapper of the normalizer. -/
def remove_leading_numbers (s : String) : String :=
  ⟨remove_leading_numbers_aux s.data⟩

/-- Whether a character list begins with the multiplier pattern the
normalizer strips: the character 1 immediately followed by a 0. -/
def startsWithMult (cs : List Char) : Prop :=
  match cs with
  | c :: d :: _ => c = '1' ∧ d = '0'
  | _ => False

instance : DecidablePred startsWithMult := fun cs => by
  cases cs with
  | nil => exact .isFalse id
  | cons c rest =>
    cases rest with
    | nil => exact .isFalse id
    | cons d rest2 => exact inferInstanceAs (Decidable (c = '1' ∧ d = '0'))

/-- A neutral base row used to build the concrete inputs of the closed
evaluations below. -/
def basePerpIn : PerpIn where
  pair := "BTC/USDT:USDT"
  rate_x := 0
  rate_y := 0
  historical_rates_x := .pyList []
  historical_rates_y := .pyList []
  historical_rates_7d_x := .pyList []
  historical_rates_7d_y := .pyList []
  historical_rates_3d_x := .pyList []
  historical_rates_3d_y := .pyList []
  mean_daily_amplitude_x := 0
  mean_daily_amplitude_y := 0
  max_daily_amplitude_x := 0
  max_daily_amplitude_y := 0
  amplitude_days_x := 0
  amplitude_days_y := 0

/-- Concrete row where venue A's current rate is strictly lower. -/
def rowLowerA : PerpIn := { basePerpIn with rate_x := 1/1000, rate_y := 2/1000 }

/-- Concrete row where venue A's current rate is strictly lower and the two
main-window sums differ. -/
def rowApy : PerpIn :=
  { basePerpIn with
    rate_x := 0, rate_y := 1/1000,
    historical_rates_x := .pyList [3/10], historical_rates_y := .pyList [] }

/-- Concrete row whose two main-window sums are equal (both empty). -/
def rowTie : PerpIn := basePerpIn

/-- Concrete row with unequal amplitude day counts where the longer side
has the smaller amplitudes. -/
def rowAmp : PerpIn :=
  { basePerpIn with
    mean_daily_amplitude_x := 2, mean_daily_amplitude_y := 9,
    max_daily_amplitude_x := 3, max_daily_amplitude_y := 11,
    amplitude_days_x := 30, amplitude_days_y := 5 }

/-- Concrete fallback-mode row with differing main-window sums. -/
def rowFallback : PerpIn :=
  { basePerpIn with
    historical_rates_x := .pyList [1/100],
    historical_rates_y := .pyList [4/100] }

/-- Concrete spot rows for the closed evaluation of the ranking claim. -/
def spotRows : List SpotRow :=
  [⟨"AAA", 2, 7⟩, ⟨"BBB", -3, 5⟩, ⟨"CCC", 4, 1⟩]

theorem label_pair (ex1 ex2 : String) (b : Bool) (r : PerpIn) :
    (short_exchange_col ex1 ex2 b r = ex1 ∧
      long_exchange_col ex1 ex2 b r = ex2) ∨
    (short_exchange_col ex1 ex2 b r = ex2 ∧
      long_exchange_col ex1 ex2 b r = ex1) := by
  unfold short_exchange_col long_exchange_col
  cases b <;> split_ifs <;> simp

/-- C1: the claim predicts that with both current rates live the venue with
the strictly lower rate is labeled short.  At this concrete input venue A
(binance) has the strictly lower rate, yet the code labels venue B (gate)
short: line 180 overrides the default to exchange_2 exactly on the rows
where rate_x < rate_y. -/
theorem C1_counterexample_lower_rate_not_short :
    rowLowerA.rate_x < rowLowerA.rate_y ∧
    (create_perp_perp_row 30 "binance" "gate" true rowLowerA).short_exchange =
      "gate" ∧
    ("gate" : String) ≠ "binance" := by
  have hlt : rowLowerA.rate_x < rowLowerA.rate_y := by
    norm_num [rowLowerA, basePerpIn]
  refine ⟨hlt, ?_, by decide⟩
  simp [create_perp_perp_row, short_exchange_col, hlt]

/-- C1 (amended): in current-rate mode exactly one venue is labeled short
and the other long; the venue with the strictly higher current rate is
short (ties default to venue A), and consequently long_rate ≤ short_rate
on every joined row. -/
theorem C1_amended_short_is_higher_rate_venue (days : ℚ) (ex1 ex2 : String)
    (r : PerpIn) (h : ex1 ≠ ex2) :
    (((create_perp_perp_row days ex1 ex2 true r).short_exchange = ex1 ∧
        (create_perp_perp_row days ex1 ex2 true r).long_exchange = ex2) ∨
      ((create_perp_perp_row days ex1 ex2 true r).short_exchange = ex2 ∧
        (create_perp_perp_row days ex1 ex2 true r).long_exchange = ex1)) ∧
    (create_perp_perp_row days ex1 ex2 true r).short_exchange ≠
      (create_perp_perp_row days ex1 ex2 true r).long_exchange ∧
    (r.rate_x < r.rate_y →
      (create_perp_perp_row days ex1 ex2 true r).short_exchange = ex2) ∧
    (r.rate_y < r.rate_x →
      (create_perp_perp_row days ex1 ex2 true r).short_exchange = ex1) ∧
    (∃ s lq, (create_perp_perp_row days ex1 ex2 true r).short_rate = some s ∧
      (create_perp_perp_row days ex1 ex2 true r).long_rate = some lq ∧
      lq ≤ s) := by
  have hne : ¬ (ex2 = ex1) := fun he => h he.symm
  by_cases hxy : r.rate_x < r.rate_y
  · refine ⟨Or.inr ⟨?_, ?_⟩, ?_, fun _ => ?_,
      fun hyx => absurd hxy (lt_asymm hyx),
      r.rate_y, r.rate_x, ?_, ?_, le_of_lt hxy⟩ <;>
      simp [create_perp_perp_row, short_exchange_col, long_exchange_col,
        short_rate_col, long_rate_col, hxy, hne, h]
  · have hle : r.rate_y ≤ r.rate_x := not_lt.mp hxy
    refine ⟨Or.inl ⟨?_, ?_⟩, ?_, fun hxy2 => absurd hxy2 hxy, fun _ => ?_,
      r.rate_x, r.rate_y, ?_, ?_, hle⟩ <;>
      simp [create_perp_perp_row, short_exchange_col, long_exchange_col,
        short_rate_col, long_rate_col, hxy, hne, h]

/-- C1 (amended) witness at a concrete joined row. -/
theorem C1_amended_witness :
    ("binance" : String) ≠ "gate" ∧ rowLowerA.rate_x < rowLowerA.rate_y ∧
    (create_perp_perp_row 30 "binance" "gate" true rowLowerA).short_exchange =
      "gate" :=
  ⟨by decide, by norm_num [rowLowerA, basePerpIn],
    (C1_amended_short_is_higher_rate_venue 30 "binance" "gate" rowLowerA
      (by decide)).2.2.1 (by norm_num [rowLowerA, basePerpIn])⟩

/-- C2: the claim predicts APY_historical_average is computed from the
assigned short-minus-long cumulative difference.  At this concrete row the
short label goes to the venue with the empty series, so the assigned
short-minus-long difference is negative, yet the emitted APY is positive:
lines 171-173 use the raw A-minus-B difference computed before the
short/long assignment. -/
theorem C2_counterexample_apy_not_short_minus_long :
    (create_perp_perp_row 30 "binance" "gate" true rowApy).APY_historical_average
      ≠ round2 (365 *
        ((create_perp_perp_row 30 "binance" "gate" true rowApy).short_cumulative_rate -
          (create_perp_perp_row 30 "binance" "gate" true rowApy).long_cumulative_rate) / 30) := by
  have hlt : rowApy.rate_x < rowApy.rate_y := by norm_num [rowApy, basePerpIn]
  have hgb : ¬ (("gate" : String) = "binance") := by decide
  have hse : short_exchange_col "binance" "gate" true rowApy = "gate" := by
    simp [short_exchange_col, hlt]
  have hle : long_exchange_col "binance" "gate" true rowApy = "binance" := by
    simp [long_exchange_col, hlt]
  have hsc : (create_perp_perp_row 30 "binance" "gate" true rowApy).short_cumulative_rate
      = 0 := by
    simp only [create_perp_perp_row, short_historical_rates_col, hse]
    rw [if_neg hgb]
    simp [rowApy, basePerpIn, coerce_to_list]
  have hlc : (create_perp_perp_row 30 "binance" "gate" true rowApy).long_cumulative_rate
      = 3/10 := by
    simp only [create_perp_perp_row, long_historical_rates_col, hle, if_true]
    simp [rowApy, basePerpIn, coerce_to_list]
  have hapy : (create_perp_perp_row 30 "binance" "gate" true rowApy).APY_historical_average
      = round2 (73/20) := by
    simp only [create_perp_perp_row, APY_col, cumulative_rate_diff, sum_x,
      sum_y, rowApy, basePerpIn, coerce_to_list, List.sum_cons, List.sum_nil]
    norm_num
  rw [hapy, hsc, hlc, show (365 * ((0:ℚ) - 3/10) / 30) = -(73/20) by norm_num]
  have e1 : round2 (73/20) = 365/100 := by
    simp only [round2]
    rw [show (100 * (73/20 : ℚ)) = ((365 : ℤ) : ℚ) by norm_num, round_intCast]
    norm_num
  have e2 : round2 (-(73/20)) = -(365/100) := by
    simp only [round2]
    rw [show (100 * (-(73/20) : ℚ)) = ((-365 : ℤ) : ℚ) by norm_num,
      round_intCast]
    norm_num
  rw [e1, e2]
  norm_num

/-- C2 (amended): for every joined row, in both modes, APY_historical_average
equals 365 times the raw venue-A-minus-venue-B main-window sum difference
divided by funding_historical_days, rounded to 2 decimals — the difference
of the first and second exchange arguments' sums, not of the assigned
short and long sides. -/
theorem C2_amended_apy_from_raw_diff (days : ℚ) (ex1 ex2 : String) (b : Bool)
    (r : PerpIn) :
    (create_perp_perp_row days ex1 ex2 b r).APY_historical_average =
      round2 (365 * ((coerce_to_list r.historical_rates_x).sum -
        (coerce_to_list r.historical_rates_y).sum) / days) := by
  simp [create_perp_perp_row, APY_col, cumulative_rate_diff, sum_x, sum_y]

/-- C3: for every joined row and each of the three windows, the emitted
cumulative_rate_diff equals the sum of the emitted short-side series minus
the sum of the emitted long-side series, and those per-side series follow
the assigned short/long labels: whichever venue is labeled short
contributes its own three windows to the short side and the other venue's
windows land on the long side. -/
theorem C3_cumulative_diff_follows_labels (days : ℚ) (ex1 ex2 : String)
    (b : Bool) (r : PerpIn) (h : ex1 ≠ ex2) :
    ((create_perp_perp_row days ex1 ex2 b r).cumulative_rate_diff_main =
      (create_perp_perp_row days ex1 ex2 b r).short_historical_rates.sum -
        (create_perp_perp_row days ex1 ex2 b r).long_historical_rates.sum) ∧
    ((create_perp_perp_row days ex1 ex2 b r).cumulative_rate_diff_7d =
      (create_perp_perp_row days ex1 ex2 b r).short_historical_rates_7d.sum -
        (create_perp_perp_row days ex1 ex2 b r).long_historical_rates_7d.sum) ∧
    ((create_perp_perp_row days ex1 ex2 b r).cumulative_rate_diff_3d =
      (create_perp_perp_row days ex1 ex2 b r).short_historical_rates_3d.sum -
        (create_perp_perp_row days ex1 ex2 b r).long_historical_rates_3d.sum) ∧
    ((create_perp_perp_row days ex1 ex2 b r).short_exchange = ex1 →
      (create_perp_perp_row days ex1 ex2 b r).short_historical_rates =
        coerce_to_list r.historical_rates_x ∧
      (create_perp_perp_row days ex1 ex2 b r).long_historical_rates =
        coerce_to_list r.historical_rates_y ∧
      (create_perp_perp_row days ex1 ex2 b r).short_historical_rates_7d =
        coerce_to_list r.historical_rates_7d_x ∧
      (create_perp_perp_row days ex1 ex2 b r).long_historical_rates_7d =
        coerce_to_list r.historical_rates_7d_y ∧
      (create_perp_perp_row days ex1 ex2 b r).short_historical_rates_3d =
        coerce_to_list r.historical_rates_3d_x ∧
      (create_perp_perp_row days ex1 ex2 b r).long_historical_rates_3d =
        coerce_to_list r.historical_rates_3d_y) ∧
    ((create_perp_perp_row days ex1 ex2 b r).short_exchange = ex2 →
      (create_perp_perp_row days ex1 ex2 b r).short_historical_rates =
        coerce_to_list r.historical_rates_y ∧
      (create_perp_perp_row days ex1 ex2 b r).long_historical_rates =
        coerce_to_list r.historical_rates_x ∧
      (create_perp_perp_row days ex1 ex2 b r).short_historical_rates_7d =
        coerce_to_list r.historical_rates_7d_y ∧
      (create_perp_perp_row days ex1 ex2 b r).long_historical_rates_7d =
        coerce_to_list r.historical_rates_7d_x ∧
      (create_perp_perp_row days ex1 ex2 b r).short_historical_rates_3d =
        coerce_to_list r.historical_rates_3d_y ∧
      (create_perp_perp_row days ex1 ex2 b r).long_historical_rates_3d =
        coerce_to_list r.historical_rates_3d_x) := by
  have hne : ¬ (ex2 = ex1) := fun he => h he.symm
  refine ⟨by simp [create_perp_perp_row], by simp [create_perp_perp_row],
    by simp [create_perp_perp_row], ?_, ?_⟩
  · intro hs
    have hs' : short_exchange_col ex1 ex2 b r = ex1 := by
      simpa [create_perp_perp_row] using hs
    rcases label_pair ex1 ex2 b r with ⟨_, hl⟩ | ⟨hs2, _⟩
    · refine ⟨?_, ?_, ?_, ?_, ?_, ?_⟩ <;>
        simp [create_perp_perp_row, short_historical_rates_col,
          long_historical_rates_col, short_historical_rates_7d_col,
          long_historical_rates_7d_col, short_historical_rates_3d_col,
          long_historical_rates_3d_col, hs', hl, hne]
    · exact absurd (hs'.symm.trans hs2) h
  · intro hs
    have hs' : short_exchange_col ex1 ex2 b r = ex2 := by
      simpa [create_perp_perp_row] using hs
    rcases label_pair ex1 ex2 b r with ⟨hs2, _⟩ | ⟨_, hl⟩
    · exact absurd (hs2.symm.trans hs') h
    · refine ⟨?_, ?_, ?_, ?_, ?_, ?_⟩ <;>
        simp [create_perp_perp_row, short_historical_rates_col,
          long_historical_rates_col, short_historical_rates_7d_col,
          long_historical_rates_7d_col, short_historical_rates_3d_col,
          long_historical_rates_3d_col, hs', hl, hne]

/-- C3 witness at a concrete joined row. -/
theorem C3_witness :
    ("binance" : String) ≠ "gate" ∧
    (create_perp_perp_row 30 "binance" "gate" true rowApy).cumulative_rate_diff_main =
      (create_perp_perp_row 30 "binance" "gate" true rowApy).short_historical_rates.sum -
        (create_perp_perp_row 30 "binance" "gate" true rowApy).long_historical_rates.sum :=
  ⟨by decide,
    (C3_cumulative_diff_follows_labels 30 "binance" "gate" true rowApy
      (by decide)).1⟩

theorem rowTie_diff_zero : cumulative_rate_diff rowTie = 0 := by
  simp [cumulative_rate_diff, sum_x, sum_y, rowTie, basePerpIn, coerce_to_list]

/-- C4: the claim predicts the default assignment (venue A short, venue B
long) in both modes on exact ties.  At this concrete fallback-mode row the
cumulative difference is exactly zero, yet venue B (gate) is labeled short:
line 185 sends every row with cumulative_rate_diff not strictly positive to
exchange_2. -/
theorem C4_counterexample_fallback_tie_short_is_B :
    cumulative_rate_diff rowTie = 0 ∧
    (create_perp_perp_row 30 "binance" "gate" false rowTie).short_exchange =
      "gate" ∧
    ("gate" : String) ≠ "binance" := by
  refine ⟨rowTie_diff_zero, ?_, by decide⟩
  simp [create_perp_perp_row, short_exchange_col, rowTie_diff_zero]

/-- C4 (amended): on exact ties the two modes default differently — in
current-rate mode equal current rates leave venue A short and venue B long,
while in fallback mode a cumulative_rate_diff of exactly zero makes venue B
short and venue A long. -/
theorem C4_amended_tie_defaults (days : ℚ) (ex1 ex2 : String) (r : PerpIn) :
    (r.rate_x = r.rate_y →
      (create_perp_perp_row days ex1 ex2 true r).short_exchange = ex1 ∧
      (create_perp_perp_row days ex1 ex2 true r).long_exchange = ex2) ∧
    (cumulative_rate_diff r = 0 →
      (create_perp_perp_row days ex1 ex2 false r).short_exchange = ex2 ∧
      (create_perp_perp_row days ex1 ex2 false r).long_exchange = ex1) := by
  constructor
  · intro he
    constructor <;>
      simp [create_perp_perp_row, short_exchange_col, long_exchange_col, he]
  · intro h0
    constructor <;>
      simp [create_perp_perp_row, short_exchange_col, long_exchange_col, h0]

/-- C4 (amended) witness at a concrete tied row. -/
theorem C4_amended_witness :
    (rowTie.rate_x = rowTie.rate_y ∧ cumulative_rate_diff rowTie = 0) ∧
    ((create_perp_perp_row 30 "binance" "gate" true rowTie).short_exchange =
        "binance" ∧
      (create_perp_perp_row 30 "binance" "gate" true rowTie).long_exchange =
        "gate") ∧
    ((create_perp_perp_row 30 "binance" "gate" false rowTie).short_exchange =
        "gate" ∧
      (create_perp_perp_row 30 "binance" "gate" false rowTie).long_exchange =
        "binance") :=
  ⟨⟨rfl, rowTie_diff_zero⟩,
    (C4_amended_tie_defaults 30 "binance" "gate" rowTie).1 rfl,
    (C4_amended_tie_defaults 30 "binance" "gate" rowTie).2 rowTie_diff_zero⟩

/-- C5: amplitude reconciliation — when one venue's amplitude_days strictly
exceeds the other's, the emitted mean/max daily amplitude and amplitude_days
are that venue's values wholesale, regardless of magnitudes; when the day
counts are equal, the emitted mean and max are the element-wise maxima of
the two venues' values. -/
theorem C5_amplitude_reconciliation (days : ℚ) (ex1 ex2 : String) (b : Bool)
    (r : PerpIn) :
    (r.amplitude_days_y < r.amplitude_days_x →
      (create_perp_perp_row days ex1 ex2 b r).mean_daily_amplitude =
        r.mean_daily_amplitude_x ∧
      (create_perp_perp_row days ex1 ex2 b r).max_daily_amplitude =
        r.max_daily_amplitude_x ∧
      (create_perp_perp_row days ex1 ex2 b r).amplitude_days =
        r.amplitude_days_x) ∧
    (r.amplitude_days_x < r.amplitude_days_y →
      (create_perp_perp_row days ex1 ex2 b r).mean_daily_amplitude =
        r.mean_daily_amplitude_y ∧
      (create_perp_perp_row days ex1 ex2 b r).max_daily_amplitude =
        r.max_daily_amplitude_y ∧
      (create_perp_perp_row days ex1 ex2 b r).amplitude_days =
        r.amplitude_days_y) ∧
    (r.amplitude_days_x = r.amplitude_days_y →
      (create_perp_perp_row days ex1 ex2 b r).mean_daily_amplitude =
        max r.mean_daily_amplitude_x r.mean_daily_amplitude_y ∧
      (create_perp_perp_row days ex1 ex2 b r).max_daily_amplitude =
        max r.max_daily_amplitude_x r.max_daily_amplitude_y ∧
      (create_perp_perp_row days ex1 ex2 b r).amplitude_days =
        r.amplitude_days_x) := by
  refine ⟨fun hyx => ?_, fun hxy => ?_, fun he => ?_⟩
  · refine ⟨?_, ?_, ?_⟩ <;>
      simp [create_perp_perp_row, mean_daily_amplitude_col,
        max_daily_amplitude_col, amplitude_days_col, hyx]
  · have hnyx : ¬ (r.amplitude_days_y < r.amplitude_days_x) := lt_asymm hxy
    refine ⟨?_, ?_, ?_⟩ <;>
      simp [create_perp_perp_row, mean_daily_amplitude_col,
        max_daily_amplitude_col, amplitude_days_col, hxy, hnyx]
  · refine ⟨?_, ?_, ?_⟩ <;>
      simp [create_perp_perp_row, mean_daily_amplitude_col,
        max_daily_amplitude_col, amplitude_days_col, he]

/-- C5 witness at a concrete row where the longer-history venue has the
smaller amplitudes. -/
theorem C5_witness :
    (rowAmp.amplitude_days_y < rowAmp.amplitude_days_x ∧
      rowAmp.mean_daily_amplitude_x < rowAmp.mean_daily_amplitude_y) ∧
    (create_perp_perp_row 30 "binance" "gate" true rowAmp).mean_daily_amplitude =
        rowAmp.mean_daily_amplitude_x ∧
    (create_perp_perp_row 30 "binance" "gate" true rowAmp).max_daily_amplitude =
        rowAmp.max_daily_amplitude_x ∧
    (create_perp_perp_row 30 "binance" "gate" true rowAmp).amplitude_days =
        rowAmp.amplitude_days_x :=
  ⟨⟨by norm_num [rowAmp, basePerpIn], by norm_num [rowAmp, basePerpIn]⟩,
    (C5_amplitude_reconciliation 30 "binance" "gate" true rowAmp).1
      (by norm_num [rowAmp, basePerpIn])⟩

/-- C10: in fallback mode the emitted main-window cumulative_rate_diff is
the absolute value of the raw difference of the two sides' main-window
sums, hence nonnegative, and strictly positive exactly when the two sums
differ. -/
theorem C10_fallback_diff_abs (days : ℚ) (ex1 ex2 : String) (r : PerpIn)
    (h : ex1 ≠ ex2) :
    (create_perp_perp_row days ex1 ex2 false r).cumulative_rate_diff_main =
      |sum_x r - sum_y r| ∧
    0 ≤ (create_perp_perp_row days ex1 ex2 false r).cumulative_rate_diff_main ∧
    (0 < (create_perp_perp_row days ex1 ex2 false r).cumulative_rate_diff_main
      ↔ sum_x r ≠ sum_y r) := by
  have hne : ¬ (ex2 = ex1) := fun he => h he.symm
  have key : (create_perp_perp_row days ex1 ex2 false r).cumulative_rate_diff_main
      = |sum_x r - sum_y r| := by
    by_cases hd : cumulative_rate_diff r > 0
    · have hd' : 0 < sum_x r - sum_y r := hd
      rw [abs_of_pos hd']
      have hs : short_exchange_col ex1 ex2 false r = ex1 := by
        simp [short_exchange_col, hd]
      have hl : long_exchange_col ex1 ex2 false r = ex2 := by
        simp [long_exchange_col, hd]
      simp [create_perp_perp_row, short_historical_rates_col,
        long_historical_rates_col, hs, hl, hne, sum_x, sum_y]
    · have hle : sum_x r - sum_y r ≤ 0 := not_lt.mp hd
      rw [abs_of_nonpos hle, neg_sub]
      have hs : short_exchange_col ex1 ex2 false r = ex2 := by
        simp [short_exchange_col, hd]
      have hl : long_exchange_col ex1 ex2 false r = ex1 := by
        simp [long_exchange_col, hd]
      simp [create_perp_perp_row, short_historical_rates_col,
        long_historical_rates_col, hs, hl, hne, sum_x, sum_y]
  refine ⟨key, ?_, ?_⟩
  · rw [key]; exact abs_nonneg _
  · rw [key, abs_pos, sub_ne_zero]

/-- C10 witness at a concrete fallback-mode row with differing sums. -/
theorem C10_witness :
    ("binance" : String) ≠ "gate" ∧
    (create_perp_perp_row 30 "binance" "gate" false rowFallback).cumulative_rate_diff_main
      = |sum_x rowFallback - sum_y rowFallback| :=
  ⟨by decide,
    (C10_fallback_diff_abs 30 "binance" "gate" rowFallback (by decide)).1⟩

theorem rate_negateAPY (s : SpotRow) : (negateAPY s).rate = s.rate := rfl

theorem negateAPY_negateAPY (s : SpotRow) : negateAPY (negateAPY s) = s := by
  simp [negateAPY]

theorem filter_neg_map_comm (rows : List SpotRow) :
    (rows.map negateAPY).filter (fun r => decide (r.rate < 0)) =
      (rows.filter (fun r => decide (r.rate < 0))).map negateAPY := by
  induction rows with
  | nil => rfl
  | cons a l ih =>
    by_cases ha : a.rate < 0 <;>
      simp [List.filter_cons, rate_negateAPY, ha, ih]

theorem filter_pos_append_filter_neg (rows : List SpotRow) :
    (rows.filter (fun r => decide (0 < r.rate)) ++
      rows.filter (fun r => decide (r.rate < 0))).Perm
      (rows.filter (fun r => decide (r.rate ≠ 0))) := by
  induction rows with
  | nil => simp
  | cons a l ih =>
    rcases lt_trichotomy a.rate 0 with ha | ha | ha
    · rw [List.filter_cons_of_neg (by simpa using not_lt.mpr (le_of_lt ha)),
        List.filter_cons_of_pos (by simpa using ha),
        List.filter_cons_of_pos (by simpa using ne_of_lt ha)]
      exact List.perm_middle.trans (ih.cons a)
    · rw [List.filter_cons_of_neg (by simp [ha]),
        List.filter_cons_of_neg (by simp [ha]),
        List.filter_cons_of_neg (by simp [ha])]
      exact ih
    · rw [List.filter_cons_of_pos (by simpa using ha),
        List.filter_cons_of_neg (by simpa using not_lt.mpr (le_of_lt ha)),
        List.filter_cons_of_pos (by simpa using ne_of_gt ha)]
      exact ih.cons a

/-- C6: spot-perp ranking and filtering — assuming every pre-filter record
already passes the absolute-rate threshold (which spot-perp computation
guarantees at line 286), the positive output is exactly the records with
rate > 0 sorted by rate descending, the negative output is exactly the
records with rate < 0 with the sign of APY_historical_average flipped,
sorted by rate ascending, every output record still passes the threshold,
the two outputs are disjoint, and — undoing the APY sign flip — their
union is exactly the pre-filter set restricted to nonzero rate. -/
theorem C6_filter_and_sort_spec (thr : ℚ) (rows : List SpotRow)
    (hthr : ∀ r ∈ rows, thr < |r.rate|) :
    (∀ r ∈ filter_and_sort_rates rows false, thr < |r.rate| ∧ 0 < r.rate) ∧
    (∀ r ∈ filter_and_sort_rates rows true, thr < |r.rate| ∧ r.rate < 0) ∧
    (filter_and_sort_rates rows false).Perm
      (rows.filter (fun r => decide (0 < r.rate))) ∧
    List.Sorted rateDescRel (filter_and_sort_rates rows false) ∧
    (filter_and_sort_rates rows true).Perm
      ((rows.filter (fun r => decide (r.rate < 0))).map negateAPY) ∧
    List.Sorted rateAscRel (filter_and_sort_rates rows true) ∧
    (∀ r ∈ filter_and_sort_rates rows false,
      r ∉ filter_and_sort_rates rows true) ∧
    ((filter_and_sort_rates rows false) ++
      (filter_and_sort_rates rows true).map negateAPY).Perm
      (rows.filter (fun r => decide (r.rate ≠ 0))) := by
  have hposperm : (filter_and_sort_rates rows false).Perm
      (rows.filter (fun r => decide (0 < r.rate))) :=
    List.perm_insertionSort _ _
  have heq : filter_and_sort_rates rows true =
      List.insertionSort rateAscRel
        ((rows.filter (fun r => decide (r.rate < 0))).map negateAPY) := by
    show List.insertionSort rateAscRel
      ((rows.map negateAPY).filter (fun r => decide (r.rate < 0))) = _
    rw [filter_neg_map_comm]
  have hnegperm : (filter_and_sort_rates rows true).Perm
      ((rows.filter (fun r => decide (r.rate < 0))).map negateAPY) := by
    rw [heq]
    exact List.perm_insertionSort _ _
  have hposmem : ∀ r ∈ filter_and_sort_rates rows false,
      r ∈ rows ∧ 0 < r.rate := by
    intro r hr
    have h2 := hposperm.mem_iff.mp hr
    simpa [List.mem_filter] using h2
  have hnegmem : ∀ r ∈ filter_and_sort_rates rows true,
      ∃ s ∈ rows, s.rate < 0 ∧ r = negateAPY s := by
    intro r hr
    have h2 := hnegperm.mem_iff.mp hr
    simp only [List.mem_map, List.mem_filter, decide_eq_true_eq] at h2
    obtain ⟨s, ⟨hs, hs0⟩, hr2⟩ := h2
    exact ⟨s, hs, hs0, hr2.symm⟩
  have hmapid : ((rows.filter (fun r => decide (r.rate < 0))).map
      negateAPY).map negateAPY = rows.filter (fun r => decide (r.rate < 0)) := by
    rw [List.map_map, show negateAPY ∘ negateAPY = id from
      funext negateAPY_negateAPY, List.map_id]
  refine ⟨?_, ?_, hposperm, ?_, hnegperm, ?_, ?_, ?_⟩
  · intro r hr
    obtain ⟨hrow, hpos⟩ := hposmem r hr
    exact ⟨hthr r hrow, hpos⟩
  · intro r hr
    obtain ⟨s, hs, hs0, rfl⟩ := hnegmem r hr
    refine ⟨?_, ?_⟩
    · rw [show |(negateAPY s).rate| = |s.rate| from by rw [rate_negateAPY]]
      exact hthr s hs
    · rw [rate_negateAPY]
      exact hs0
  · exact List.sorted_insertionSort rateDescRel _
  · rw [heq]
    exact List.sorted_insertionSort rateAscRel _
  · intro r hr hr2
    have h1 := (hposmem r hr).2
    obtain ⟨s, _, hs0, rfl⟩ := hnegmem r hr2
    rw [rate_negateAPY] at h1
    exact lt_asymm hs0 h1
  · have h1 := hposperm.append (hnegperm.map negateAPY)
    rw [hmapid] at h1
    exact h1.trans (filter_pos_append_filter_neg rows)

/-- C6 witness at a concrete pre-filter table. -/
theorem C6_witness :
    (∀ r ∈ spotRows, (1 : ℚ) < |r.rate|) ∧
    (filter_and_sort_rates spotRows false).Perm
      (spotRows.filter (fun r => decide (0 < r.rate))) := by
  have hthr : ∀ r ∈ spotRows, (1 : ℚ) < |r.rate| := by
    intro r hr
    simp only [spotRows, List.mem_cons, List.not_mem_nil, or_false] at hr
    rcases hr with rfl | rfl | rfl <;> rw [lt_abs] <;> norm_num
  exact ⟨hthr, (C6_filter_and_sort_spec 1 spotRows hthr).2.2.1⟩

/-- C7: the claim predicts that malformed historical series never cause an
error anywhere, including the series used in spot-perp computation.  At
this concrete malformed value — a string that ast.literal_eval cannot
parse — the spot-perp preparation step has no try/except (lines 284, 295)
and the exception propagates to the caller. -/
theorem C7_counterexample_spot_raises :
    ¬ (RawVal.str ParseResult.failure).wellFormedList ∧
    spot_approx_rate (RawVal.str ParseResult.failure) = Except.error () :=
  ⟨by decide, rfl⟩

/-- C7 (amended): in perp-perp computation every malformed or missing
historical series (null, unparseable string, string encoding a non-list,
any other type) is locally replaced by the empty sequence and no error
escapes, for all six series sites; in spot-perp computation only a missing
(null) value is recovered (as the empty list), while an unparseable
string, a wrong-typed value, or a genuine list object makes
ast.literal_eval raise to the caller. -/
theorem C7_amended_coercion_recovery :
    (∀ v : RawVal, ¬ v.wellFormedList → coerce_to_list v = []) ∧
    spot_coerce_hist RawVal.null = SpotHistResult.ok [] ∧
    spot_coerce_hist (RawVal.str ParseResult.failure) = SpotHistResult.raised ∧
    spot_coerce_hist RawVal.wrongType = SpotHistResult.raised ∧
    ∀ l : List ℚ, spot_coerce_hist (RawVal.pyList l) = SpotHistResult.raised := by
  refine ⟨?_, rfl, rfl, rfl, fun l => rfl⟩
  intro v hv
  cases v with
  | pyList l => exact absurd trivial hv
  | null => rfl
  | str p =>
    cases p with
    | list l => exact absurd trivial hv
    | nonList => rfl
    | failure => rfl
  | wrongType => rfl

/-- C7 (amended) witness at a concrete missing value. -/
theorem C7_amended_witness :
    ¬ (RawVal.null).wellFormedList ∧ coerce_to_list RawVal.null = [] :=
  ⟨by decide, C7_amended_coercion_recovery.1 RawVal.null (by decide)⟩

/-- C8: in spot-perp computation, when the live rate is absent the row's
rate is the last element of its parsed historical series, or 0 when that
series is empty, and the threshold filter is applied to this approximated
rate. -/
theorem C8_spot_missing_rate_approximation (thr lr : ℚ) (h : RawVal)
    (l : List ℚ) (hok : spot_coerce_hist h = SpotHistResult.ok l) :
    spot_row_rate false lr h = Except.ok ((l.getLast?).getD 0) ∧
    (l = [] → spot_row_rate false lr h = Except.ok 0) ∧
    (∀ q, l.getLast? = some q → spot_row_rate false lr h = Except.ok q) ∧
    spot_keep_row thr false lr h =
      Except.ok (decide (thr < |(l.getLast?).getD 0|)) := by
  have h0 : spot_row_rate false lr h = spot_approx_rate h := rfl
  have h1 : spot_approx_rate h = Except.ok ((l.getLast?).getD 0) := by
    simp [spot_approx_rate, hok]
  refine ⟨h0.trans h1, fun hnil => ?_, fun q hq => ?_, ?_⟩
  · simp [h0, h1, hnil]
  · simp [h0, h1, hq]
  · simp [spot_keep_row, h0, h1]

/-- C8 witness at a concrete row with a two-element series and no live
rate. -/
theorem C8_witness :
    spot_coerce_hist (RawVal.str (ParseResult.list [5, 7])) =
      SpotHistResult.ok [5, 7] ∧
    spot_row_rate false 0 (RawVal.str (ParseResult.list [5, 7])) =
      Except.ok ((([5, 7] : List ℚ).getLast?).getD 0) :=
  ⟨rfl, (C8_spot_missing_rate_approximation 1 0
    (RawVal.str (ParseResult.list [5, 7])) [5, 7] rfl).1⟩

/-- C9: the claim predicts idempotence of normalization for every symbol.
At this concrete symbol one application strips only the first multiplier
prefix, exposing a second one, so a second application strips again: the
anchored regex substitution is not idempotent. -/
theorem C9_counterexample_not_idempotent :
    remove_leading_numbers (remove_leading_numbers "10100SATSUSDT") ≠
      remove_leading_numbers "10100SATSUSDT" := by
  have h1 : remove_leading_numbers "10100SATSUSDT" = "100SATSUSDT" := rfl
  rw [h1]
  have h2 : remove_leading_numbers "100SATSUSDT" = "SATSUSDT" := rfl
  rw [h2]
  decide

theorem aux_id_of_not_mult (cs : List Char) (h : ¬ startsWithMult cs) :
    remove_leading_numbers_aux cs = cs := by
  cases cs with
  | nil => rfl
  | cons c rest =>
    by_cases hc : c = '1'
    · subst hc
      cases rest with
      | nil => simp [remove_leading_numbers_aux]
      | cons d rest2 =>
        have hd : ¬ (d = '0') := fun hd0 => h ⟨rfl, hd0⟩
        simp [remove_leading_numbers_aux, List.takeWhile_cons, hd]
    · simp [remove_leading_numbers_aux, hc]

theorem length_dropWhile_le_self (p : Char → Bool) (l : List Char) :
    (l.dropWhile p).length ≤ l.length := by
  induction l with
  | nil => simp
  | cons a t ih =>
    rw [List.dropWhile_cons]
    by_cases hp : p a = true
    · simp only [hp, if_true]
      exact le_trans ih (Nat.le_succ _)
    · simp [hp]

theorem aux_ne_of_mult (cs : List Char) (h : startsWithMult cs) :
    remove_leading_numbers_aux cs ≠ cs := by
  cases cs with
  | nil => exact absurd h id
  | cons c rest =>
    cases rest with
    | nil => exact absurd h id
    | cons d rest2 =>
      obtain ⟨hc, hd⟩ := h
      subst hc
      subst hd
      intro heq
      have hred : remove_leading_numbers_aux ('1' :: '0' :: rest2) =
          List.dropWhile (fun x => decide (x = '0')) rest2 := rfl
      rw [hred] at heq
      have hlen := congrArg List.length heq
      have hle := length_dropWhile_le_self (fun x => decide (x = '0')) rest2
      simp only [List.length_cons] at hlen
      omega

/-- C9 (amended): normalization strips at most one leading multiplier
prefix per application, so it is idempotent exactly on the symbols whose
once-normalized form does not again begin with the character 1 followed by
a 0; on every symbol where stripping exposes a second multiplier prefix
(such as 10100SATSUSDT), a second application strips again. -/
theorem C9_amended_idempotent_unless_new_multiplier (s : String) :
    remove_leading_numbers (remove_leading_numbers s) =
      remove_leading_numbers s ↔
      ¬ startsWithMult (remove_leading_numbers s).data := by
  constructor
  · intro heq hmult
    exact aux_ne_of_mult _ hmult (congrArg String.data heq)
  · intro h
    exact congrArg String.mk (aux_id_of_not_mult _ h)

/-- C9 (amended) witness: both directions of the characterization at
concrete symbols — a single-prefix symbol is a fixed point of the second
application, while a symbol whose normalization exposes a second prefix is
not. -/
theorem C9_amended_witness :
    (¬ startsWithMult (remove_leading_numbers "1000PEPEUSDT").data ∧
      remove_leading_numbers (remove_leading_numbers "1000PEPEUSDT") =
        remove_leading_numbers "1000PEPEUSDT") ∧
    (startsWithMult (remove_leading_numbers "10100SATSUSDT").data ∧
      remove_leading_numbers (remove_leading_numbers "10100SATSUSDT") ≠
        remove_leading_numbers "10100SATSUSDT") :=
  ⟨⟨by decide,
    (C9_amended_idempotent_unless_new_multiplier "1000PEPEUSDT").mpr
      (by decide)⟩,
   ⟨by decide,
    fun heq =>
      (C9_amended_idempotent_unless_new_multiplier "10100SATSUSDT").mp heq
        (by decide)⟩⟩

end FundingScanner
